import Mathlib

/-!
Verification of the carbon footprint calculator
(src/merged_carbon_calculator.py) against its specification.

Numeric values are modelled over the rationals: every emission factor and
every threshold in the source is an exact decimal, so the arithmetic of the
source formulas is represented exactly.  Python's round-to-2-decimals
(banker's rounding, half to even) is modelled by `round2`.
-/

namespace Carbon

/-- The four footprint categories (the keys of the `thresholds` dict in
`show_impact` and the `Category` column of the stored rows). -/
inductive Category where
  | Household
  | Transport
  | Car
  | Food
deriving DecidableEq, Repr

/-- The `thresholds` dict of `show_impact` (lines 49-54): for each category,
a list of three ascending breakpoints and a list of four labels. -/
def thresholds : Category → List ℚ × List String
  | .Household => ([2, 5, 10], ["🌱 Excellent!", "⚠️ Moderate", "❗ High", "🚨 Very High"])
  | .Transport => ([1, 3, 5], ["🚆 Great!", "⚠️ Average", "❗ High", "✈️ Very High"])
  | .Car => ([2, 4, 6], ["⚡ Efficient!", "⚠️ Average", "❗ High", "💨 Very High"])
  | .Food => ([1.5, 3, 4.5], ["🌱 Sustainable!", "⚠️ Average", "❗ High", "🍗 Very High"])

/-- The label chosen by `show_impact` (lines 47-63): the if/elif chain
compares `value` with strict less-than against the three breakpoints in
ascending order, falling through to the fourth label. -/
def show_impact (value : ℚ) (category : Category) : String :=
  let t := thresholds category
  if value < t.1.getD 0 0 then t.2.getD 0 ""
  else if value < t.1.getD 1 0 then t.2.getD 1 ""
  else if value < t.1.getD 2 0 then t.2.getD 2 ""
  else t.2.getD 3 ""

/-- Breakpoint `i` of a category. -/
def bp (c : Category) (i : ℕ) : ℚ := (thresholds c).1.getD i 0

/-- Label `i` of a category. -/
def lab (c : Category) (i : ℕ) : String := (thresholds c).2.getD i ""

/-- Round a rational to the nearest integer, ties to even
(the rounding mode of Python's built-in `round`). -/
def roundHalfEven (q : ℚ) : ℤ :=
  if q - ⌊q⌋ < 1 / 2 then ⌊q⌋
  else if 1 / 2 < q - ⌊q⌋ then ⌊q⌋ + 1
  else if ⌊q⌋ % 2 = 0 then ⌊q⌋ else ⌊q⌋ + 1

/-- Python's `round(x, 2)`. -/
def round2 (q : ℚ) : ℚ := roundHalfEven (100 * q) / 100

/-- The household total of `household_calculator` (lines 119-124). -/
def household_total (members : ℕ) (electricity gas oil coal : ℚ) : ℚ :=
  ((electricity * 0.000708) + (gas * 0.0002) + (oil * 0.0027) + (coal * 0.00288))
    / members

/-- The transport total of `transport_calculator` (lines 151-156). -/
def transport_total (bus train taxi flights : ℚ) : ℚ :=
  (bus * 0.0001) + (train * 0.00004) + (taxi * 0.0001) + (flights * 0.0002)

/-- The options of the car fuel-type selectbox (line 201), a closed set. -/
inductive FuelType where
  | Petrol
  | Diesel
  | Hybrid
  | Electric
deriving DecidableEq, Repr

/-- The `factors` dict of the car tab (lines 207-212). -/
def carFactor : FuelType → ℚ
  | .Petrol => 2.31
  | .Diesel => 2.68
  | .Hybrid => 1.50
  | .Electric => 0.05

/-- The car total (lines 214-217): the Electric branch is distance-based,
the other fuel types use fuel consumption. -/
def car_total (distance : ℚ) (fuel_type : FuelType) (fuel_efficiency : ℚ) : ℚ :=
  if fuel_type = .Electric then distance * carFactor fuel_type / 1000
  else (distance * (fuel_efficiency / 100) * carFactor fuel_type) / 1000

/-- The options of the diet-type selectbox (lines 234-239), a closed set. -/
inductive DietType where
  | MeatLover
  | Average
  | Vegetarian
  | Vegan
deriving DecidableEq, Repr

/-- The `factors` dict of the food tab (lines 245-250). -/
def foodFactor : DietType → ℚ
  | .MeatLover => 3.5
  | .Average => 2.5
  | .Vegetarian => 1.5
  | .Vegan => 1.0

/-- The food total (line 252). -/
def food_total (diet_type : DietType) (meals : ℕ) : ℚ :=
  meals * foodFactor diet_type * 52 / 1000

/-- One stored row (the dict built before each `save_data` call).  The
`Type` column always duplicates `Category` at every call site, and the
`Timestamp` column records real wall-clock time, so neither is modelled. -/
structure Record where
  category : Category
  value : ℚ
deriving DecidableEq, Repr

/-- `save_data` (lines 20-26): `pd.concat` of the existing dataframe with
the one-row dataframe of the new record, i.e. append at the end. -/
def save_data (ledger : List Record) (r : Record) : List Record :=
  ledger ++ [r]

/-- The pie-chart source of `show_visualizations` (line 91):
`groupby(Category).last()` keeps, for each category occurring in the
history, its last row in insertion order. -/
def latest_per_category (ledger : List Record) (c : Category) : Option Record :=
  (ledger.filter (fun r => r.category = c)).getLast?

/-- The household button handler (lines 118-136) as data: the first
component is the value passed to `show_impact` (line 127, the unrounded
`total`), the second is the row handed to `save_data` (lines 130-136,
whose `Value` field is `round(total, 2)`). -/
def household_step (members : ℕ) (electricity gas oil coal : ℚ) : ℚ × Record :=
  (household_total members electricity gas oil coal,
   ⟨.Household, round2 (household_total members electricity gas oil coal)⟩)

/-- The transport button handler (lines 150-168): unrounded total to
`show_impact` (line 159), rounded value in the stored row (line 164). -/
def transport_step (bus train taxi flights : ℚ) : ℚ × Record :=
  (transport_total bus train taxi flights,
   ⟨.Transport, round2 (transport_total bus train taxi flights)⟩)

/-- The car button handler (lines 205-228): unrounded total to
`show_impact` (line 220), rounded value in the stored row (line 224). -/
def car_step (distance : ℚ) (fuel_type : FuelType) (fuel_efficiency : ℚ) :
    ℚ × Record :=
  (car_total distance fuel_type fuel_efficiency,
   ⟨.Car, round2 (car_total distance fuel_type fuel_efficiency)⟩)

/-- The food button handler (lines 243-263): unrounded total to
`show_impact` (line 255), rounded value in the stored row (line 260). -/
def food_step (diet_type : DietType) (meals : ℕ) : ℚ × Record :=
  (food_total diet_type meals, ⟨.Food, round2 (food_total diet_type meals)⟩)

/-- The error taxonomy of the spec (section 7). -/
inductive CalcError where
  | InvalidInput
deriving DecidableEq, Repr

/-- Modelled from the spec: the repository exposes no standalone estimator
API; the `members >= 1` precondition is enforced by the input widget
(line 111 passes a minimum of 1 to `st.number_input`), so the rejection
path required by the spec (fail with `InvalidInput` before computation
when `members < 1`) is not code under src.  This follows the spec words:
reject, do not clamp, then compute the household formula and round. -/
def estimate_household_checked (members : ℤ) (electricity gas oil coal : ℚ) :
    Except CalcError ℚ :=
  if members < 1 then .error .InvalidInput
  else .ok (round2 (((electricity * 0.000708) + (gas * 0.0002) +
    (oil * 0.0027) + (coal * 0.00288)) / members))

/-- The example history of the spec (section 8): Household(1.0), then
Household(2.0), then Transport(0.5). -/
def exHist : List Record :=
  [⟨.Household, 1.0⟩, ⟨.Household, 2.0⟩, ⟨.Transport, 0.5⟩]

/-! ### Helper lemmas -/

lemma roundHalfEven_nonneg (q : ℚ) (h : 0 ≤ q) : 0 ≤ roundHalfEven q := by
  unfold roundHalfEven
  have hf : 0 ≤ ⌊q⌋ := Int.floor_nonneg.2 h
  split_ifs <;> omega

lemma round2_nonneg (q : ℚ) (h : 0 ≤ q) : 0 ≤ round2 q := by
  unfold round2
  apply div_nonneg _ (by norm_num)
  exact_mod_cast roundHalfEven_nonneg _ (by positivity)

lemma roundHalfEven_le (q : ℚ) : (roundHalfEven q : ℚ) ≤ q + 1 := by
  unfold roundHalfEven
  have := Int.floor_le q
  split_ifs <;> push_cast <;> linarith

lemma round2_le (q : ℚ) : round2 q ≤ q + 1 / 100 := by
  unfold round2
  have h := roundHalfEven_le (100 * q)
  rw [div_le_iff₀ (by norm_num : (0:ℚ) < 100)]
  linarith

/-- Band characterisation of a three-breakpoint if/elif chain with four
pairwise distinct labels. -/
lemma chain_bands (v b0 b1 b2 : ℚ) (L0 L1 L2 L3 : String)
    (h01 : L0 ≠ L1) (h02 : L0 ≠ L2) (h03 : L0 ≠ L3)
    (h12 : L1 ≠ L2) (h13 : L1 ≠ L3) (h23 : L2 ≠ L3)
    (hb01 : b0 ≤ b1) (hb12 : b1 ≤ b2) :
    ((if v < b0 then L0 else if v < b1 then L1 else if v < b2 then L2 else L3) = L0 ↔ v < b0) ∧
    ((if v < b0 then L0 else if v < b1 then L1 else if v < b2 then L2 else L3) = L1 ↔ b0 ≤ v ∧ v < b1) ∧
    ((if v < b0 then L0 else if v < b1 then L1 else if v < b2 then L2 else L3) = L2 ↔ b1 ≤ v ∧ v < b2) ∧
    ((if v < b0 then L0 else if v < b1 then L1 else if v < b2 then L2 else L3) = L3 ↔ b2 ≤ v) := by
  split_ifs with hv0 hv1 hv2 <;>
    refine ⟨?_, ?_, ?_, ?_⟩ <;>
    constructor <;>
    intro h <;>
    first
      | rfl
      | assumption
      | exact absurd h (by assumption)
      | exact absurd h.2 (by assumption)
      | exact absurd h (Ne.symm (by assumption))
      | (exfalso; push_neg at *; linarith [h.1])
      | (exfalso; push_neg at *; linarith)
      | (push_neg at *; exact ⟨by linarith, by linarith⟩)
      | (push_neg at *; linarith)

lemma foldl_save_data (acc rs : List Record) :
    List.foldl save_data acc rs = acc ++ rs := by
  induction rs generalizing acc with
  | nil => simp
  | cons r rs ih => simp [List.foldl, save_data, ih]

lemma latest_append (l : List Record) (r : Record) (c : Category) :
    latest_per_category (save_data l r) c =
      if r.category = c then some r else latest_per_category l c := by
  unfold latest_per_category save_data
  rw [List.filter_append]
  by_cases h : r.category = c
  · simp [h]
  · simp [h]

/-! ### Claim theorems -/

/-- Claim C1, counterexample: at members 1 and oil 740 litres the total is
1.998; the value passed to `show_impact` is this unrounded total, which
differs from the stored rounded value 2.0, and the two values classify
into different bands, so the classifier does not receive the stored
rounded value. -/
theorem classified_value_unrounded_cex :
    (household_step 1 0 0 740 0).1 ≠ (household_step 1 0 0 740 0).2.value ∧
    show_impact (household_step 1 0 0 740 0).1 .Household ≠
      show_impact (household_step 1 0 0 740 0).2.value .Household := by
  have h1 : (household_step 1 0 0 740 0).1 = 999 / 500 := by
    norm_num [household_step, household_total]
  have h2 : (household_step 1 0 0 740 0).2.value = 2 := by
    norm_num [household_step, household_total, round2, roundHalfEven]
  rw [h1, h2]
  constructor
  · norm_num
  · norm_num [show_impact, thresholds]
    decide

/-- Claim C1, amended: for every category, the value appended to the
ledger is the total rounded to 2 decimal places, but the value passed to
the impact classifier is the unrounded total, which can differ from the
stored value. -/
theorem step_classifier_and_store (m : ℕ) (e g o c bus train taxi fl d eff : ℚ)
    (ft : FuelType) (dt : DietType) (meals : ℕ) :
    household_step m e g o c =
      (household_total m e g o c,
       ⟨.Household, round2 (household_total m e g o c)⟩) ∧
    transport_step bus train taxi fl =
      (transport_total bus train taxi fl,
       ⟨.Transport, round2 (transport_total bus train taxi fl)⟩) ∧
    car_step d ft eff = (car_total d ft eff, ⟨.Car, round2 (car_total d ft eff)⟩) ∧
    food_step dt meals = (food_total dt meals, ⟨.Food, round2 (food_total dt meals)⟩) :=
  ⟨rfl, rfl, rfl, rfl⟩

/-- Claim C2: for nonnegative inputs and at least one member, the
household total equals the spec formula
(electricity*0.000708 + gas*0.0002 + oil*0.0027 + coal*0.00288)/members,
and at members 1 and electricity 1000 the rounded result is 0.71. -/
theorem household_formula (members : ℕ) (e g o c : ℚ) (hm : 1 ≤ members)
    (he : 0 ≤ e) (hg : 0 ≤ g) (ho : 0 ≤ o) (hc : 0 ≤ c) :
    household_total members e g o c =
      (e * 0.000708 + g * 0.0002 + o * 0.0027 + c * 0.00288) / members ∧
    round2 (household_total 1 1000 0 0 0) = 0.71 := by
  constructor
  · unfold household_total; ring
  · norm_num [household_total, round2, roundHalfEven]

/-- Claim C2, witness at members 1, electricity 1000, other inputs 0. -/
theorem household_formula_witness :
    household_total 1 1000 0 0 0 =
      (1000 * 0.000708 + 0 * 0.0002 + 0 * 0.0027 + 0 * 0.00288) / (1 : ℕ) ∧
    round2 (household_total 1 1000 0 0 0) = 0.71 :=
  household_formula 1 1000 0 0 0 (by norm_num) (by norm_num) (by norm_num)
    (by norm_num) (by norm_num)

/-- Claim C3: for every category with breakpoints b0 < b1 < b2 and labels
L0..L3, `show_impact` returns L0 iff value < b0, L1 iff b0 <= value < b1,
L2 iff b1 <= value < b2, and L3 iff b2 <= value; equality at a breakpoint
selects the next band.  In particular Household 1.99 gets the first label
and Household 2.0 the second. -/
theorem classify_bands_correct (c : Category) (v : ℚ) :
    ((show_impact v c = lab c 0 ↔ v < bp c 0) ∧
     (show_impact v c = lab c 1 ↔ bp c 0 ≤ v ∧ v < bp c 1) ∧
     (show_impact v c = lab c 2 ↔ bp c 1 ≤ v ∧ v < bp c 2) ∧
     (show_impact v c = lab c 3 ↔ bp c 2 ≤ v)) ∧
    show_impact 1.99 .Household = lab .Household 0 ∧
    show_impact 2 .Household = lab .Household 1 := by
  refine ⟨?_, by norm_num [show_impact, thresholds, lab],
    by norm_num [show_impact, thresholds, lab]⟩
  have key : show_impact v c =
      if v < bp c 0 then lab c 0 else if v < bp c 1 then lab c 1
      else if v < bp c 2 then lab c 2 else lab c 3 := by
    cases c <;> rfl
  rw [key]
  cases c <;>
    exact chain_bands v _ _ _ _ _ _ _ (by decide) (by decide) (by decide)
      (by decide) (by decide) (by decide)
      (by norm_num [bp, thresholds]) (by norm_num [bp, thresholds])

/-- Claim C4, counterexample: the Household labels in the code are not
the bare strings of the spec table in section 6; they carry emoji
decorations, so the claim of exact label strings fails even though the
breakpoints 2, 5, 10 match. -/
theorem thresholds_labels_not_plain_cex :
    ¬((thresholds .Household).1 = [2, 5, 10] ∧
      (thresholds .Household).2 = ["Excellent", "Moderate", "High", "Very High"]) :=
  fun h => absurd h.2 (by decide)

/-- Claim C4, amended: the breakpoints match section 6 exactly for every
category, and each label is the section 6 name decorated with an emoji
prefix (and an exclamation mark on the first label of each category). -/
theorem thresholds_table :
    ((thresholds .Household).1 = [2, 5, 10] ∧
     (thresholds .Household).2 =
       ["🌱 " ++ "Excellent" ++ "!", "⚠️ " ++ "Moderate",
        "❗ " ++ "High", "🚨 " ++ "Very High"]) ∧
    ((thresholds .Transport).1 = [1, 3, 5] ∧
     (thresholds .Transport).2 =
       ["🚆 " ++ "Great" ++ "!", "⚠️ " ++ "Average",
        "❗ " ++ "High", "✈️ " ++ "Very High"]) ∧
    ((thresholds .Car).1 = [2, 4, 6] ∧
     (thresholds .Car).2 =
       ["⚡ " ++ "Efficient" ++ "!", "⚠️ " ++ "Average",
        "❗ " ++ "High", "💨 " ++ "Very High"]) ∧
    ((thresholds .Food).1 = [1.5, 3, 4.5] ∧
     (thresholds .Food).2 =
       ["🌱 " ++ "Sustainable" ++ "!", "⚠️ " ++ "Average",
        "❗ " ++ "High", "🍗 " ++ "Very High"]) :=
  ⟨⟨rfl, by decide⟩, ⟨rfl, by decide⟩, ⟨rfl, by decide⟩, ⟨rfl, by decide⟩⟩

/-- Claim C5: for nonnegative distance and fuel efficiency, the Electric
car total is distance*0.05/1000 and is independent of fuel efficiency;
Petrol, Diesel and Hybrid use distance*(efficiency/100)*factor/1000 with
factors 2.31, 2.68 and 1.50. -/
theorem car_formula (d eff : ℚ) (hd : 0 ≤ d) (heff : 0 ≤ eff) :
    car_total d .Electric eff = d * 0.05 / 1000 ∧
    (∀ eff2 : ℚ, car_total d .Electric eff2 = car_total d .Electric eff) ∧
    car_total d .Petrol eff = d * (eff / 100) * 2.31 / 1000 ∧
    car_total d .Diesel eff = d * (eff / 100) * 2.68 / 1000 ∧
    car_total d .Hybrid eff = d * (eff / 100) * 1.50 / 1000 :=
  ⟨rfl, fun _ => rfl, rfl, rfl, rfl⟩

/-- Claim C5, witness at distance 100 and efficiency 8. -/
theorem car_formula_witness :
    car_total 100 .Electric 8 = 100 * 0.05 / 1000 :=
  (car_formula 100 8 (by norm_num) (by norm_num)).1

/-- Claim C6: for every diet type and 1 <= meals <= 21, the food total is
meals*factor*52/1000 with factors 3.5, 2.5, 1.5 and 1.0; at Vegan and 14
meals the rounded result is 0.73. -/
theorem food_formula (dt : DietType) (meals : ℕ)
    (h1 : 1 ≤ meals) (h2 : meals ≤ 21) :
    food_total dt meals = meals * foodFactor dt * 52 / 1000 ∧
    foodFactor .MeatLover = 3.5 ∧ foodFactor .Average = 2.5 ∧
    foodFactor .Vegetarian = 1.5 ∧ foodFactor .Vegan = 1.0 ∧
    round2 (food_total .Vegan 14) = 0.73 :=
  ⟨rfl, rfl, rfl, rfl, rfl,
   by norm_num [food_total, foodFactor, round2, roundHalfEven]⟩

/-- Claim C6, witness at Vegan and 14 meals per week. -/
theorem food_formula_witness :
    round2 (food_total .Vegan 14) = 0.73 :=
  (food_formula .Vegan 14 (by norm_num) (by norm_num)).2.2.2.2.2

/-- Claim C7: appending a sequence of records to the empty ledger yields
exactly that sequence in append order, each append keeps earlier records
and puts the new one last, and `latest_per_category` maps each occurring
category to its most recently appended record; on the example history
Household(1.0), Household(2.0), Transport(0.5) it gives Household 2.0 and
Transport 0.5, with Car and Food absent. -/
theorem ledger_behavior (rs l : List Record) (r : Record) (c : Category) :
    List.foldl save_data [] rs = rs ∧
    save_data l r = l ++ [r] ∧
    latest_per_category (save_data l r) c =
      (if r.category = c then some r else latest_per_category l c) ∧
    latest_per_category exHist .Household = some ⟨.Household, 2.0⟩ ∧
    latest_per_category exHist .Transport = some ⟨.Transport, 0.5⟩ ∧
    latest_per_category exHist .Car = none ∧
    latest_per_category exHist .Food = none :=
  ⟨foldl_save_data [] rs, rfl, latest_append l r c, rfl, rfl, rfl, rfl⟩

/-- Claim C8: for nonnegative inputs (and members at least 1), each of the
four rounded estimates is nonnegative and is an integer multiple of
1/100, i.e. has exactly 2 decimal places. -/
theorem estimates_nonneg_rounded (m : ℕ) (e g o c bus train taxi fl d eff : ℚ)
    (ft : FuelType) (dt : DietType) (meals : ℕ)
    (hm : 1 ≤ m) (he : 0 ≤ e) (hg : 0 ≤ g) (ho : 0 ≤ o) (hc : 0 ≤ c)
    (hb : 0 ≤ bus) (htr : 0 ≤ train) (hx : 0 ≤ taxi) (hf : 0 ≤ fl)
    (hd : 0 ≤ d) (heff : 0 ≤ eff) :
    (0 ≤ round2 (household_total m e g o c) ∧
      ∃ n : ℤ, round2 (household_total m e g o c) = n / 100) ∧
    (0 ≤ round2 (transport_total bus train taxi fl) ∧
      ∃ n : ℤ, round2 (transport_total bus train taxi fl) = n / 100) ∧
    (0 ≤ round2 (car_total d ft eff) ∧
      ∃ n : ℤ, round2 (car_total d ft eff) = n / 100) ∧
    (0 ≤ round2 (food_total dt meals) ∧
      ∃ n : ℤ, round2 (food_total dt meals) = n / 100) := by
  have hh : 0 ≤ household_total m e g o c := by
    unfold household_total
    apply div_nonneg _ (Nat.cast_nonneg m)
    have p1 := mul_nonneg he (by norm_num : (0:ℚ) ≤ 0.000708)
    have p2 := mul_nonneg hg (by norm_num : (0:ℚ) ≤ 0.0002)
    have p3 := mul_nonneg ho (by norm_num : (0:ℚ) ≤ 0.0027)
    have p4 := mul_nonneg hc (by norm_num : (0:ℚ) ≤ 0.00288)
    linarith
  have htt : 0 ≤ transport_total bus train taxi fl := by
    unfold transport_total
    have p1 := mul_nonneg hb (by norm_num : (0:ℚ) ≤ 0.0001)
    have p2 := mul_nonneg htr (by norm_num : (0:ℚ) ≤ 0.00004)
    have p3 := mul_nonneg hx (by norm_num : (0:ℚ) ≤ 0.0001)
    have p4 := mul_nonneg hf (by norm_num : (0:ℚ) ≤ 0.0002)
    linarith
  have hct : 0 ≤ car_total d ft eff := by
    have hfac : 0 ≤ carFactor ft := by cases ft <;> norm_num [carFactor]
    unfold car_total
    split_ifs
    · exact div_nonneg (mul_nonneg hd hfac) (by norm_num)
    · exact div_nonneg
        (mul_nonneg (mul_nonneg hd (div_nonneg heff (by norm_num))) hfac)
        (by norm_num)
  have hft : 0 ≤ food_total dt meals := by
    have hfac : 0 ≤ foodFactor dt := by cases dt <;> norm_num [foodFactor]
    unfold food_total
    exact div_nonneg
      (mul_nonneg (mul_nonneg (Nat.cast_nonneg meals) hfac) (by norm_num))
      (by norm_num)
  exact ⟨⟨round2_nonneg _ hh, roundHalfEven (100 * household_total m e g o c), rfl⟩,
    ⟨round2_nonneg _ htt, roundHalfEven (100 * transport_total bus train taxi fl), rfl⟩,
    ⟨round2_nonneg _ hct, roundHalfEven (100 * car_total d ft eff), rfl⟩,
    ⟨round2_nonneg _ hft, roundHalfEven (100 * food_total dt meals), rfl⟩⟩

/-- Claim C8, witness at members 1, electricity 1000, Petrol, Vegan, 14
meals and other inputs 0. -/
theorem estimates_nonneg_rounded_witness :
    0 ≤ round2 (household_total 1 1000 0 0 0) :=
  (estimates_nonneg_rounded 1 1000 0 0 0 0 0 0 0 100 8 .Petrol .Vegan 14
    (by norm_num) (by norm_num) (by norm_num) (by norm_num) (by norm_num)
    (by norm_num) (by norm_num) (by norm_num) (by norm_num) (by norm_num)
    (by norm_num)).1.1

/-- Claim C9: when members < 1, the checked household estimator rejects
the input with InvalidInput before any estimate is computed. -/
theorem invalid_members_rejected (members : ℤ) (e g o c : ℚ)
    (h : members < 1) :
    estimate_household_checked members e g o c = .error .InvalidInput := by
  unfold estimate_household_checked
  rw [if_pos h]

/-- Claim C9, witness at members 0. -/
theorem invalid_members_rejected_witness :
    estimate_household_checked 0 1000 0 0 0 = .error .InvalidInput :=
  invalid_members_rejected 0 1000 0 0 0 (by norm_num)

/-- Claim C10: for every diet type and 1 <= meals <= 21 the food total is
at most 21*3.5*52/1000 = 3.822 < 4.5, so the fourth Food band is
unreachable for both the unrounded and the rounded estimate. -/
theorem food_fourth_band_unreachable (dt : DietType) (meals : ℕ)
    (h1 : 1 ≤ meals) (h2 : meals ≤ 21) :
    show_impact (food_total dt meals) .Food ≠ lab .Food 3 ∧
    show_impact (round2 (food_total dt meals)) .Food ≠ lab .Food 3 := by
  have hfac : foodFactor dt ≤ 3.5 ∧ 0 ≤ foodFactor dt := by
    cases dt <;> norm_num [foodFactor]
  have hb : food_total dt meals ≤ 3.822 := by
    unfold food_total
    rw [div_le_iff₀ (by norm_num : (0:ℚ) < 1000)]
    have hm : (meals : ℚ) ≤ 21 := by exact_mod_cast h2
    have hm0 : (0:ℚ) ≤ meals := Nat.cast_nonneg meals
    nlinarith [hfac.1, hfac.2]
  have key : ∀ v : ℚ, v < 4.5 → show_impact v .Food ≠ lab .Food 3 := by
    intro v hv
    have hrw : show_impact v .Food =
        if v < 1.5 then "🌱 Sustainable!" else if v < 3 then "⚠️ Average"
        else if v < 4.5 then "❗ High" else "🍗 Very High" := rfl
    rw [hrw]
    split_ifs with hA hB
    · decide
    · decide
    · decide
  have hr : round2 (food_total dt meals) < 4.5 := by
    have := round2_le (food_total dt meals)
    linarith
  exact ⟨key _ (by linarith), key _ hr⟩

/-- Claim C10, witness at the maximal valid input, MeatLover with 21
meals per week. -/
theorem food_fourth_band_unreachable_witness :
    show_impact (food_total .MeatLover 21) .Food ≠ lab .Food 3 :=
  (food_fourth_band_unreachable .MeatLover 21 (by norm_num) (by norm_num)).1

end Carbon
